import Mathlib

/-!
Verification of the tolling-service-bus repository.

This file shallowly embeds the validation, publishing, topology-provisioning,
reconnection and worker logic of the repository (src/schemas.py, src/publisher.py,
src/app_bus.py, src/worker.py) as executable Lean definitions, and proves or
refutes the frozen claims about it.

Modelling conventions:
- JSON values are the inductive `Json` below; Python dicts become ordered
  association lists (Python dicts have unique keys and preserve insertion order).
- The repository validates with the `jsonschema` library at its default settings,
  under which the "format" annotations ("date-time", "date") are NOT enforced;
  the embedding therefore ignores them, exactly as the running code does.
- The schema language fragment actually used by the repository (type:
  object/string/number/integer/boolean/array, union types such as
  ["string","null"], required, properties, additionalProperties, items) is
  embedded by the layered types `PrimTy`, `FlatObjSchema`, `PropSchema`,
  `ObjSchema`; the sources use nothing deeper than object -> array -> object
  -> primitive, which this layering covers without loss.
- Network effects are represented as explicit lists of actions (`NetAction`,
  `BrokerOp`), so "nothing reaches the broker" is the empty action list.
-/

/-- JSON values. Numbers are rationals: Python ints are rationals with
denominator 1, floats that appear in the repository are exact decimals. -/
inductive Json where
  | null
  | bool (b : Bool)
  | num (q : Rat)
  | str (s : String)
  | arr (xs : List Json)
  | obj (fields : List (String × Json))

/-- Python `d[k]` / `d.get(k)` on a JSON object: first binding for key `k`. -/
def jGet (j : Json) (k : String) : Option Json :=
  match j with
  | Json.obj fields => (fields.find? (fun kv => kv.1 == k)).map Prod.snd
  | _ => none

/-- Primitive JSON-Schema types appearing in the repository's schemas. -/
inductive PrimTy where
  | str
  | num
  | int
  | boolean
  | nul
  deriving DecidableEq, Repr

/-- Instance check for one primitive type, per jsonschema semantics: "integer"
accepts a number with zero fractional part; booleans are not numbers. -/
def tyMatches (t : PrimTy) (j : Json) : Bool :=
  match t, j with
  | PrimTy.str, Json.str _ => true
  | PrimTy.num, Json.num _ => true
  | PrimTy.int, Json.num q => q.den == 1
  | PrimTy.boolean, Json.bool _ => true
  | PrimTy.nul, Json.null => true
  | _, _ => false

/-- An object schema whose declared properties are all of primitive type
(possibly a union such as ["string","null"]). Used for the nested `meta`
object of the envelope schema and for the `alerts` item schema. -/
structure FlatObjSchema where
  required : List String
  properties : List (String × List PrimTy)
  additional : Bool
  deriving DecidableEq, Repr

/-- Check a JSON value against a `FlatObjSchema`, per jsonschema semantics:
the value must be an object, every required key must be present, every
present declared property must match one of its allowed primitive types, and
undeclared keys are allowed iff `additional` is true. -/
def checkFlat (s : FlatObjSchema) (j : Json) : Bool :=
  match j with
  | Json.obj fields =>
      s.required.all (fun r => fields.any (fun kv => kv.1 == r)) &&
      fields.all (fun kv =>
        match s.properties.find? (fun p => p.1 == kv.1) with
        | some p => p.2.any (fun t => tyMatches t kv.2)
        | none => s.additional)
  | _ => false

/-- Schema of one declared property of a top-level object schema. -/
inductive PropSchema where
  | prim (tys : List PrimTy)
  | objOf (s : FlatObjSchema)
  | arrOfObj (itemS : FlatObjSchema)
  | anyObject
  deriving DecidableEq, Repr

/-- Check a JSON value against a `PropSchema`. `anyObject` embeds the bare
schema with only "type": "object" (the envelope's `data` property). -/
def checkProp (p : PropSchema) (j : Json) : Bool :=
  match p, j with
  | PropSchema.prim tys, v => tys.any (fun t => tyMatches t v)
  | PropSchema.objOf s, v => checkFlat s v
  | PropSchema.arrOfObj s, Json.arr xs => xs.all (fun x => checkFlat s x)
  | PropSchema.arrOfObj _, _ => false
  | PropSchema.anyObject, Json.obj _ => true
  | PropSchema.anyObject, _ => false

/-- A top-level object schema of the repository (the envelope schema or one
per-event payload schema). -/
structure ObjSchema where
  required : List String
  properties : List (String × PropSchema)
  additional : Bool
  deriving DecidableEq, Repr

/-- Check a JSON value against an `ObjSchema`, per jsonschema semantics
(see `checkFlat`). -/
def checkObj (s : ObjSchema) (j : Json) : Bool :=
  match j with
  | Json.obj fields =>
      s.required.all (fun r => fields.any (fun kv => kv.1 == r)) &&
      fields.all (fun kv =>
        match s.properties.find? (fun p => p.1 == kv.1) with
        | some p => checkProp p.2 kv.2
        | none => s.additional)
  | _ => false

/-- The `meta` sub-schema of the envelope schema, transcribed from
src/schemas.py (ENVELOPE) and identically from src/app_bus.py
(ENVELOPE_SCHEMA): occurred_at and producer required, four declared string
properties, additionalProperties true. The "date-time" format annotation is
not enforced by the code (jsonschema default) and is therefore omitted. -/
def metaSchema : FlatObjSchema :=
  { required := ["occurred_at", "producer"],
    properties :=
      [("occurred_at", [PrimTy.str]), ("producer", [PrimTy.str]),
       ("correlation_id", [PrimTy.str]), ("causation_id", [PrimTy.str])],
    additional := true }

/-- The envelope schema, transcribed from src/schemas.py ENVELOPE
(= src/app_bus.py ENVELOPE_SCHEMA): required event/version/data/meta,
`data` constrained only to be an object, additionalProperties false. -/
def ENVELOPE : ObjSchema :=
  { required := ["event", "version", "data", "meta"],
    properties :=
      [("event", PropSchema.prim [PrimTy.str]),
       ("version", PropSchema.prim [PrimTy.str]),
       ("data", PropSchema.anyObject),
       ("meta", PropSchema.objOf metaSchema)],
    additional := false }

/-- Payload schema for event "transit.recorded", transcribed from
src/schemas.py (identical in src/app_bus.py SCHEMAS). Closed schema. -/
def transitRecordedS : ObjSchema :=
  { required := ["transit_id", "toll_id", "toll_name", "lane", "vehicle_id",
                 "vehicle_type", "timestamp"],
    properties :=
      [("transit_id", PropSchema.prim [PrimTy.str]),
       ("toll_id", PropSchema.prim [PrimTy.str]),
       ("toll_name", PropSchema.prim [PrimTy.str]),
       ("lane", PropSchema.prim [PrimTy.str]),
       ("vehicle_id", PropSchema.prim [PrimTy.str]),
       ("vehicle_type", PropSchema.prim [PrimTy.str]),
       ("timestamp", PropSchema.prim [PrimTy.str]),
       ("details", PropSchema.prim [PrimTy.str])],
    additional := false }

/-- Payload schema for event "plate.captured" (src/schemas.py). Closed. -/
def plateCapturedS : ObjSchema :=
  { required := ["toll_id", "lane", "image_id", "plate", "confidence", "timestamp"],
    properties :=
      [("toll_id", PropSchema.prim [PrimTy.str]),
       ("lane", PropSchema.prim [PrimTy.str]),
       ("image_id", PropSchema.prim [PrimTy.str]),
       ("plate", PropSchema.prim [PrimTy.str]),
       ("confidence", PropSchema.prim [PrimTy.num]),
       ("timestamp", PropSchema.prim [PrimTy.str])],
    additional := false }

/-- Item schema of the "alerts" array of "toll.status.updated": the source
declares no additionalProperties for it, so jsonschema defaults it to open. -/
def tollAlertItemS : FlatObjSchema :=
  { required := ["type", "time"],
    properties :=
      [("type", [PrimTy.str]), ("lane", [PrimTy.str, PrimTy.nul]),
       ("time", [PrimTy.str])],
    additional := true }

/-- Payload schema for event "toll.status.updated" (src/schemas.py). Closed
at the top level; carries an optional "alerts" array of objects. -/
def tollStatusUpdatedS : ObjSchema :=
  { required := ["toll_id", "toll_name", "open_lanes", "closed_lanes", "timestamp"],
    properties :=
      [("toll_id", PropSchema.prim [PrimTy.str]),
       ("toll_name", PropSchema.prim [PrimTy.str]),
       ("open_lanes", PropSchema.prim [PrimTy.int]),
       ("closed_lanes", PropSchema.prim [PrimTy.int]),
       ("timestamp", PropSchema.prim [PrimTy.str]),
       ("alerts", PropSchema.arrOfObj tollAlertItemS)],
    additional := false }

/-- Payload schema for event "rate.updated" (src/schemas.py). Closed. -/
def rateUpdatedS : ObjSchema :=
  { required := ["rate_id", "category_id", "peak_price", "offpeak_price",
                 "valid_from", "valid_to"],
    properties :=
      [("rate_id", PropSchema.prim [PrimTy.str]),
       ("category_id", PropSchema.prim [PrimTy.str]),
       ("peak_price", PropSchema.prim [PrimTy.num]),
       ("offpeak_price", PropSchema.prim [PrimTy.num]),
       ("valid_from", PropSchema.prim [PrimTy.str]),
       ("valid_to", PropSchema.prim [PrimTy.str])],
    additional := false }

/-- Payload schema for event "vehicle.category.changed" (src/schemas.py). Closed. -/
def vehicleCategoryChangedS : ObjSchema :=
  { required := ["vehicle_id", "old_category_id", "new_category_id", "timestamp"],
    properties :=
      [("vehicle_id", PropSchema.prim [PrimTy.str]),
       ("old_category_id", PropSchema.prim [PrimTy.str]),
       ("new_category_id", PropSchema.prim [PrimTy.str]),
       ("timestamp", PropSchema.prim [PrimTy.str])],
    additional := false }

/-- Payload schema for event "payment.recorded" (src/schemas.py). Closed. -/
def paymentRecordedS : ObjSchema :=
  { required := ["payment_id", "toll_id", "toll_name", "cashier_id", "timestamp",
                 "payment_method", "amount", "reason"],
    properties :=
      [("payment_id", PropSchema.prim [PrimTy.str]),
       ("toll_id", PropSchema.prim [PrimTy.str]),
       ("toll_name", PropSchema.prim [PrimTy.str]),
       ("cashier_id", PropSchema.prim [PrimTy.str]),
       ("timestamp", PropSchema.prim [PrimTy.str]),
       ("payment_method", PropSchema.prim [PrimTy.str]),
       ("amount", PropSchema.prim [PrimTy.num]),
       ("reason", PropSchema.prim [PrimTy.str])],
    additional := false }

/-- Payload schema for event "prepaid.balance.updated" (src/schemas.py). Closed. -/
def prepaidBalanceUpdatedS : ObjSchema :=
  { required := ["account_id", "vehicle_id", "delta", "balance", "timestamp", "source"],
    properties :=
      [("account_id", PropSchema.prim [PrimTy.str]),
       ("vehicle_id", PropSchema.prim [PrimTy.str]),
       ("delta", PropSchema.prim [PrimTy.num]),
       ("balance", PropSchema.prim [PrimTy.num]),
       ("timestamp", PropSchema.prim [PrimTy.str]),
       ("source", PropSchema.prim [PrimTy.str])],
    additional := false }

/-- Payload schema for event "debt.created" (src/schemas.py). Closed. -/
def debtCreatedS : ObjSchema :=
  { required := ["debt_id", "vehicle_id", "amount", "origin", "timestamp"],
    properties :=
      [("debt_id", PropSchema.prim [PrimTy.str]),
       ("vehicle_id", PropSchema.prim [PrimTy.str]),
       ("amount", PropSchema.prim [PrimTy.num]),
       ("origin", PropSchema.prim [PrimTy.str]),
       ("timestamp", PropSchema.prim [PrimTy.str])],
    additional := false }

/-- Payload schema for event "debt.settled" (src/schemas.py). Closed. -/
def debtSettledS : ObjSchema :=
  { required := ["debt_id", "vehicle_id", "amount", "timestamp"],
    properties :=
      [("debt_id", PropSchema.prim [PrimTy.str]),
       ("vehicle_id", PropSchema.prim [PrimTy.str]),
       ("amount", PropSchema.prim [PrimTy.num]),
       ("timestamp", PropSchema.prim [PrimTy.str])],
    additional := false }

/-- Payload schema for event "fine.issued" (src/schemas.py). Closed; the
optional transit_id admits string or null. -/
def fineIssuedS : ObjSchema :=
  { required := ["fine_id", "vehicle_id", "timestamp", "amount",
                 "infraction_type", "state"],
    properties :=
      [("fine_id", PropSchema.prim [PrimTy.str]),
       ("vehicle_id", PropSchema.prim [PrimTy.str]),
       ("timestamp", PropSchema.prim [PrimTy.str]),
       ("amount", PropSchema.prim [PrimTy.num]),
       ("infraction_type", PropSchema.prim [PrimTy.str]),
       ("state", PropSchema.prim [PrimTy.str]),
       ("transit_id", PropSchema.prim [PrimTy.str, PrimTy.nul])],
    additional := false }

/-- Payload schema for event "customer.upserted" (src/schemas.py). OPEN:
additionalProperties true, caller-defined extension fields allowed. -/
def customerUpsertedS : ObjSchema :=
  { required := ["customer_id", "name", "is_active"],
    properties :=
      [("customer_id", PropSchema.prim [PrimTy.str]),
       ("name", PropSchema.prim [PrimTy.str]),
       ("is_active", PropSchema.prim [PrimTy.boolean])],
    additional := true }

/-- Payload schema for event "vehicle.upserted" (src/schemas.py). OPEN:
additionalProperties true, caller-defined extension fields allowed. -/
def vehicleUpsertedS : ObjSchema :=
  { required := ["vehicle_id", "plate", "category_id"],
    properties :=
      [("vehicle_id", PropSchema.prim [PrimTy.str]),
       ("plate", PropSchema.prim [PrimTy.str]),
       ("category_id", PropSchema.prim [PrimTy.str])],
    additional := true }

/-- Payload schema for event "audit.logged" (src/schemas.py). Closed. -/
def auditLoggedS : ObjSchema :=
  { required := ["event_id", "event_type", "timestamp", "toll_name", "details"],
    properties :=
      [("event_id", PropSchema.prim [PrimTy.str]),
       ("event_type", PropSchema.prim [PrimTy.str]),
       ("timestamp", PropSchema.prim [PrimTy.str]),
       ("toll_name", PropSchema.prim [PrimTy.str]),
       ("details", PropSchema.prim [PrimTy.str]),
       ("vehicle_id", PropSchema.prim [PrimTy.str, PrimTy.nul])],
    additional := false }

/-- The schema registry SCHEMAS, transcribed from src/schemas.py; the copy in
src/app_bus.py is character-for-character the same table. Dict insertion
order preserved. -/
def SCHEMAS : List (String × ObjSchema) :=
  [("transit.recorded", transitRecordedS),
   ("plate.captured", plateCapturedS),
   ("toll.status.updated", tollStatusUpdatedS),
   ("rate.updated", rateUpdatedS),
   ("vehicle.category.changed", vehicleCategoryChangedS),
   ("payment.recorded", paymentRecordedS),
   ("prepaid.balance.updated", prepaidBalanceUpdatedS),
   ("debt.created", debtCreatedS),
   ("debt.settled", debtSettledS),
   ("fine.issued", fineIssuedS),
   ("customer.upserted", customerUpsertedS),
   ("vehicle.upserted", vehicleUpsertedS),
   ("audit.logged", auditLoggedS)]

/-- Python `SCHEMAS.get(evt)` (src/publisher.py line 27). -/
def lookupSchema (evt : String) : Option ObjSchema :=
  (SCHEMAS.find? (fun p => p.1 == evt)).map Prod.snd

/-- Validation failure raised by src/publisher.py main: a jsonschema
ValidationError on the envelope, the SystemExit for an unregistered event
(line 29), or a jsonschema ValidationError on the payload. -/
inductive ValErr where
  | envelopeInvalid
  | schemaNotRegistered (event : String)
  | dataInvalid
  deriving DecidableEq, Repr

/-- The validation phase of src/publisher.py main (lines 25-30):
validate(envelope, ENVELOPE_SCHEMA); evt = envelope["event"];
schema = SCHEMAS.get(evt); if not schema: raise SystemExit;
validate(envelope["data"], schema). The catch-all branches for a missing or
non-string "event"/"data" are unreachable once the envelope check passed,
because the envelope schema requires both. -/
def publisher_validate (envelope : Json) : Except ValErr (String × Json) :=
  if checkObj ENVELOPE envelope then
    match jGet envelope "event" with
    | some (Json.str evt) =>
      match lookupSchema evt with
      | none => Except.error (ValErr.schemaNotRegistered evt)
      | some schema =>
        match jGet envelope "data" with
        | some d =>
          if checkObj schema d then Except.ok (evt, d)
          else Except.error ValErr.dataInvalid
        | none => Except.error ValErr.envelopeInvalid
    | _ => Except.error ValErr.envelopeInvalid
  else Except.error ValErr.envelopeInvalid

/-- The pika BasicProperties constructed at src/publisher.py line 41. Fields
not passed to the constructor (message_id among them) default to None. -/
structure BasicProperties where
  content_type : Option String
  delivery_mode : Option Nat
  message_id : Option String
  deriving DecidableEq, Repr

/-- One basic_publish call as issued by src/publisher.py lines 37-42. `body`
holds the JSON value whose UTF-8 serialization json.dumps(envelope).encode
is sent; `mandatory` records the flag pika defaults to False because the
call does not pass it. -/
structure PublishInstr where
  exchange : String
  routing_key : String
  body : Json
  props : BasicProperties
  mandatory : Bool

/-- Network interactions of src/publisher.py main, in program order. -/
inductive NetAction where
  | connect
  | publish (p : PublishInstr)
  | close

/-- Python `args.routing_key or evt` (src/publisher.py line 36): an absent or
empty --routing-key argument falls back to the envelope's event. -/
def chooseRk (rkArg : Option String) (evt : String) : String :=
  match rkArg with
  | some rk => if rk = "" then evt else rk
  | none => evt

/-- src/publisher.py main after argument parsing: validate; on success
connect, publish once with content_type application/json and delivery_mode 2
(mandatory not passed, hence False; message_id not passed, hence None), close,
and report the routing key used. On validation failure the program exits
before load_cfg/pika are touched, so the network trace is empty. -/
def publisher_main (envelope : Json) (rkArg : Option String) (exchange : String) :
    List NetAction × Except ValErr String :=
  match publisher_validate envelope with
  | Except.error e => ([], Except.error e)
  | Except.ok (evt, _d) =>
    let rk := chooseRk rkArg evt
    ([NetAction.connect,
      NetAction.publish
        { exchange := exchange, routing_key := rk, body := envelope,
          props := { content_type := some "application/json",
                     delivery_mode := some 2, message_id := none },
          mandatory := false },
      NetAction.close],
     Except.ok rk)

/-- The publish calls contained in a publisher run's network trace. -/
def publishedOf (r : List NetAction × Except ValErr String) : List PublishInstr :=
  r.1.filterMap (fun a =>
    match a with
    | NetAction.publish p => some p
    | _ => none)

/-- The envelope's meta.correlation_id, as the docs of src/app_bus.py and the
spec describe it (used to state what the publisher does NOT propagate). -/
def metaCorrelationId (envelope : Json) : Option Json :=
  (jGet envelope "meta").bind (fun m => jGet m "correlation_id")

/-- The topology portion of config.json consumed by RabbitClient
(src/app_bus.py lines 217-218): dead-letter exchange name, primary exchange
name and type, message TTL, and queue specs (name, binding patterns). The
config file itself is deployment input, so it stays a parameter. -/
structure TopoCfg where
  dlx : String
  exchange : String
  exchangeType : String
  ttlMs : Nat
  queues : List (String × List String)
  deriving DecidableEq, Repr

/-- One AMQP declaration issued by RabbitClient.ensure_topology. queueDeclare
carries the x-dead-letter-exchange and x-message-ttl arguments when present. -/
inductive BrokerOp where
  | exchangeDeclare (name ty : String) (durable : Bool)
  | queueDeclare (name : String) (durable : Bool) (dlxArg : Option String)
      (ttlArg : Option Nat)
  | queueBind (queue exchange routingKey : String)
  deriving DecidableEq, Repr

/-- Declarations for one queue spec (src/app_bus.py lines 263-270): the durable
queue with DLX/TTL arguments, one bind per binding pattern, then the plain
durable <name>.dlq bound to the DLX with the empty routing key. -/
def queueOps (cfg : TopoCfg) (q : String × List String) : List BrokerOp :=
  BrokerOp.queueDeclare q.1 true (some cfg.dlx) (some cfg.ttlMs)
    :: (q.2.map (fun rk => BrokerOp.queueBind q.1 cfg.exchange rk)
        ++ [BrokerOp.queueDeclare (q.1 ++ ".dlq") true none none,
            BrokerOp.queueBind (q.1 ++ ".dlq") cfg.dlx ""])

/-- The full declaration sequence of RabbitClient.ensure_topology
(src/app_bus.py lines 260-270), in program order. -/
def topologyOps (cfg : TopoCfg) : List BrokerOp :=
  BrokerOp.exchangeDeclare cfg.dlx "fanout" true
    :: BrokerOp.exchangeDeclare cfg.exchange cfg.exchangeType true
    :: (cfg.queues.map (queueOps cfg)).flatten

/-- Mutable state of a RabbitClient instance (src/app_bus.py lines 224-229):
openness of the connection and the channel, the _topology_ready flag
(the spec's topology_applied), and _last_error. -/
structure RCState where
  connOpen : Bool
  chOpen : Bool
  topologyReady : Bool
  lastError : Option String
  deriving DecidableEq, Repr

/-- State effect of RabbitClient._ensure_connection (src/app_bus.py lines
237-249) once its retry loop lands a connection: if connection and channel are
already open it returns unchanged, otherwise it replaces them with a fresh
open pair. No other attribute is touched - in particular _topology_ready
keeps its value. The retry/backoff schedule of the loop itself is modelled
separately by `ensure_connection_loop`. -/
def ensure_connection (s : RCState) : RCState :=
  if s.connOpen && s.chOpen then s
  else { s with connOpen := true, chOpen := true }

/-- RabbitClient.ensure_topology (src/app_bus.py lines 251-276), single
threaded: an early return when _topology_ready is already set (no broker
interaction), otherwise connect and run the declarations. `failAt` says which
declaration, if any, raises: the declarations before it were already issued,
the flag stays false and _last_error is set; with no failure every
declaration runs, the flag is set and _last_error cleared. Returns the bool
result, the new state and the issued declarations. -/
def ensure_topology (cfg : TopoCfg) (failAt : Option Nat) (s : RCState) :
    Bool × RCState × List BrokerOp :=
  if s.topologyReady then (true, s, [])
  else
    let s1 := ensure_connection s
    let ops := topologyOps cfg
    match failAt with
    | some i =>
      if i < ops.length then
        (false, { s1 with lastError := some "topology_failed" }, ops.take i)
      else (true, { s1 with topologyReady := true, lastError := none }, ops)
    | none => (true, { s1 with topologyReady := true, lastError := none }, ops)

/-- The connect retry loop of RabbitClient._ensure_connection (src/app_bus.py
lines 240-249). `outcomes n` tells whether the n-th connection attempt
(0-based) succeeds. Time is in seconds as Nat: the Python floats involved
(1.0 and its doublings, the cap 15) are all exactly representable. Each
failed attempt sleeps min(delay, 15) and then doubles delay. The Python loop
is `while True`; the `fuel` argument only truncates the unrolling, and
exhausting it yields `none` (the loop still running), never a give-up
result. Returns the sleep sequence performed before the first success. -/
def ensure_connection_loop (outcomes : Nat → Bool) :
    Nat → Nat → Nat → List Nat → Option (List Nat)
  | 0, _, _, _ => none
  | fuel + 1, attempt, delay, sleeps =>
    if outcomes attempt then some sleeps.reverse
    else ensure_connection_loop outcomes fuel (attempt + 1) (delay * 2)
      (min delay 15 :: sleeps)

/-- What the worker does with one delivery. -/
inductive WorkerAction where
  | ack
  | nackNoRequeue
  deriving DecidableEq, Repr

/-- Validity of a byte sequence as UTF-8, the success condition of Python's
bytes.decode("utf-8"): the only operation inside the try-block of
worker.py's on_msg that can raise. Follows RFC 3629 (overlong encodings,
surrogates and values above U+10FFFF rejected). -/
def isValidUtf8 : List Nat → Bool
  | [] => true
  | b :: rest =>
    if b ≤ 0x7F then isValidUtf8 rest
    else if 0xC2 ≤ b && b ≤ 0xDF then
      match rest with
      | c :: r => (0x80 ≤ c && c ≤ 0xBF) && isValidUtf8 r
      | [] => false
    else if b == 0xE0 then
      match rest with
      | c :: d :: r => (0xA0 ≤ c && c ≤ 0xBF) && (0x80 ≤ d && d ≤ 0xBF) && isValidUtf8 r
      | _ => false
    else if (0xE1 ≤ b && b ≤ 0xEC) || (0xEE ≤ b && b ≤ 0xEF) then
      match rest with
      | c :: d :: r => (0x80 ≤ c && c ≤ 0xBF) && (0x80 ≤ d && d ≤ 0xBF) && isValidUtf8 r
      | _ => false
    else if b == 0xED then
      match rest with
      | c :: d :: r => (0x80 ≤ c && c ≤ 0x9F) && (0x80 ≤ d && d ≤ 0xBF) && isValidUtf8 r
      | _ => false
    else if b == 0xF0 then
      match rest with
      | c :: d :: e :: r =>
        (0x90 ≤ c && c ≤ 0xBF) && (0x80 ≤ d && d ≤ 0xBF) && (0x80 ≤ e && e ≤ 0xBF)
          && isValidUtf8 r
      | _ => false
    else if 0xF1 ≤ b && b ≤ 0xF3 then
      match rest with
      | c :: d :: e :: r =>
        (0x80 ≤ c && c ≤ 0xBF) && (0x80 ≤ d && d ≤ 0xBF) && (0x80 ≤ e && e ≤ 0xBF)
          && isValidUtf8 r
      | _ => false
    else if b == 0xF4 then
      match rest with
      | c :: d :: e :: r =>
        (0x80 ≤ c && c ≤ 0x8F) && (0x80 ≤ d && d ≤ 0xBF) && (0x80 ≤ e && e ≤ 0xBF)
          && isValidUtf8 r
      | _ => false
    else false

/-- The on_msg handler of src/worker.py run_consumer (lines 45-51): the
try-block decodes the body as UTF-8 and logs it, then acks; any exception
(i.e. a body that is not valid UTF-8) reaches the except-block, which nacks
with requeue=False so the broker dead-letters the message. The handler never
parses JSON and never consults the schema registry. -/
def on_msg (body : List Nat) : WorkerAction :=
  if isValidUtf8 body then WorkerAction.ack else WorkerAction.nackNoRequeue

/-- The transit.recorded example envelope published in the documentation page
of src/app_bus.py (build_docs_html examples): a valid envelope whose meta
carries correlation_id "corr-1". -/
def transitExampleEnvelope : Json :=
  Json.obj
    [("event", Json.str "transit.recorded"),
     ("version", Json.str "1.0"),
     ("data", Json.obj
       [("transit_id", Json.str "t-001"),
        ("toll_id", Json.str "N1"),
        ("toll_name", Json.str "Peaje Norte"),
        ("lane", Json.str "3"),
        ("vehicle_id", Json.str "V-ABC123"),
        ("vehicle_type", Json.str "car"),
        ("timestamp", Json.str "2025-10-26T14:22:33Z")]),
     ("meta", Json.obj
       [("occurred_at", Json.str "2025-10-26T14:22:33Z"),
        ("producer", Json.str "module3"),
        ("correlation_id", Json.str "corr-1")])]

/-- One concrete payload per registered event that matches its schema exactly:
all required fields present with the declared types, optional declared fields
exercised where the schema has interesting ones (union types, the alerts
array), extension fields only on the two open schemas. -/
def exampleData (evt : String) : Option Json :=
  match evt with
  | "transit.recorded" => some (Json.obj
      [("transit_id", Json.str "t-001"), ("toll_id", Json.str "N1"),
       ("toll_name", Json.str "Peaje Norte"), ("lane", Json.str "3"),
       ("vehicle_id", Json.str "V-ABC123"), ("vehicle_type", Json.str "car"),
       ("timestamp", Json.str "2025-10-26T14:22:33Z"),
       ("details", Json.str "ok")])
  | "plate.captured" => some (Json.obj
      [("toll_id", Json.str "N1"), ("lane", Json.str "3"),
       ("image_id", Json.str "img-1"), ("plate", Json.str "ABC123"),
       ("confidence", Json.num 1), ("timestamp", Json.str "2025-10-26T14:22:33Z")])
  | "toll.status.updated" => some (Json.obj
      [("toll_id", Json.str "N1"), ("toll_name", Json.str "Peaje Norte"),
       ("open_lanes", Json.num 3), ("closed_lanes", Json.num 1),
       ("timestamp", Json.str "2025-10-26T14:22:33Z"),
       ("alerts", Json.arr
         [Json.obj [("type", Json.str "queue"), ("lane", Json.null),
                    ("time", Json.str "2025-10-26T14:22:33Z")]])])
  | "rate.updated" => some (Json.obj
      [("rate_id", Json.str "r-1"), ("category_id", Json.str "car"),
       ("peak_price", Json.num 10), ("offpeak_price", Json.num 5),
       ("valid_from", Json.str "2025-01-01"), ("valid_to", Json.str "2025-12-31")])
  | "vehicle.category.changed" => some (Json.obj
      [("vehicle_id", Json.str "V-ABC123"), ("old_category_id", Json.str "car"),
       ("new_category_id", Json.str "truck"),
       ("timestamp", Json.str "2025-10-25T08:00:00Z")])
  | "payment.recorded" => some (Json.obj
      [("payment_id", Json.str "p-1001"), ("toll_id", Json.str "N1"),
       ("toll_name", Json.str "Peaje Norte"), ("cashier_id", Json.str "c-7"),
       ("timestamp", Json.str "2025-10-26T15:00:00Z"),
       ("payment_method", Json.str "cash"), ("amount", Json.num 1200),
       ("reason", Json.str "toll")])
  | "prepaid.balance.updated" => some (Json.obj
      [("account_id", Json.str "a-1"), ("vehicle_id", Json.str "V-ABC123"),
       ("delta", Json.num (-50)), ("balance", Json.num 950),
       ("timestamp", Json.str "2025-10-26T15:00:00Z"),
       ("source", Json.str "debit")])
  | "debt.created" => some (Json.obj
      [("debt_id", Json.str "d-1"), ("vehicle_id", Json.str "V-ABC123"),
       ("amount", Json.num 300), ("origin", Json.str "toll_evasion"),
       ("timestamp", Json.str "2025-10-26T15:00:00Z")])
  | "debt.settled" => some (Json.obj
      [("debt_id", Json.str "d-1"), ("vehicle_id", Json.str "V-ABC123"),
       ("amount", Json.num 300), ("timestamp", Json.str "2025-10-27T15:00:00Z")])
  | "fine.issued" => some (Json.obj
      [("fine_id", Json.str "f-1"), ("vehicle_id", Json.str "V-ABC123"),
       ("timestamp", Json.str "2025-10-26T15:00:00Z"), ("amount", Json.num 500),
       ("infraction_type", Json.str "evasion"), ("state", Json.str "open"),
       ("transit_id", Json.null)])
  | "customer.upserted" => some (Json.obj
      [("customer_id", Json.str "C-77"), ("name", Json.str "Acme SA"),
       ("is_active", Json.bool true), ("vat", Json.str "30-12345678-9")])
  | "vehicle.upserted" => some (Json.obj
      [("vehicle_id", Json.str "V-ABC123"), ("plate", Json.str "ABC123"),
       ("category_id", Json.str "car"), ("color", Json.str "red")])
  | "audit.logged" => some (Json.obj
      [("event_id", Json.str "e-1"), ("event_type", Json.str "transit.recorded"),
       ("timestamp", Json.str "2025-10-26T15:00:00Z"),
       ("toll_name", Json.str "Peaje Norte"), ("details", Json.str "ok"),
       ("vehicle_id", Json.null)])
  | _ => none

/-- An envelope built like transitExampleEnvelope but whose meta carries the
two required keys followed by arbitrary extra bindings; used to state that
the envelope schema leaves meta open. -/
def envWithMetaExtras (extras : List (String × Json)) : Json :=
  Json.obj
    [("event", Json.str "transit.recorded"),
     ("version", Json.str "1.0"),
     ("data", Json.obj []),
     ("meta", Json.obj
       ([("occurred_at", Json.str "2025-01-01T00:00:00Z"),
         ("producer", Json.str "m3")] ++ extras))]


/-- A Boolean `all` over a list is false once one member fails the predicate. -/
lemma list_all_eq_false {α : Type} {p : α → Bool} {l : List α} {a : α}
    (ha : a ∈ l) (hpa : p a = false) : l.all p = false := by
  cases h : l.all p
  · rfl
  · have htrue := List.all_eq_true.mp h a ha
    rw [hpa] at htrue
    exact absurd htrue (by simp)

/-- A keyed find? misses when no listed key equals the searched one. -/
lemma findKey_eq_none {α : Type} {props : List (String × α)} {k : String}
    (h : ∀ p ∈ props, p.1 ≠ k) : props.find? (fun p => p.1 == k) = none := by
  rw [List.find?_eq_none]
  intro x hx
  simp [h x hx]

/-- checkObj rejects an object missing one of the schema's required keys. -/
lemma checkObj_missing_required {s : ObjSchema} {r : String}
    {fields : List (String × Json)} (hr : r ∈ s.required)
    (habs : fields.any (fun kv => kv.1 == r) = false) :
    checkObj s (Json.obj fields) = false := by
  have h1 : s.required.all (fun x => fields.any (fun kv => kv.1 == x)) = false :=
    list_all_eq_false hr habs
  simp [checkObj, h1]

/-- checkObj rejects an object carrying a declared field whose value fails
that field's schema (in particular, a wrongly-typed field). -/
lemma checkObj_bad_field {s : ObjSchema} {k : String} {v : Json}
    {p : String × PropSchema} {fields : List (String × Json)}
    (hmem : (k, v) ∈ fields)
    (hfind : s.properties.find? (fun q => q.1 == k) = some p)
    (hbad : checkProp p.2 v = false) :
    checkObj s (Json.obj fields) = false := by
  have h2 : fields.all (fun kv =>
      match s.properties.find? (fun q => q.1 == kv.1) with
      | some q => checkProp q.2 kv.2
      | none => s.additional) = false := by
    apply list_all_eq_false hmem
    show (match s.properties.find? (fun q => q.1 == k) with
      | some q => checkProp q.2 v
      | none => s.additional) = false
    rw [hfind]
    exact hbad
  simp [checkObj, h2]

/-- checkObj on a closed schema rejects an object carrying an undeclared key. -/
lemma checkObj_undeclared {s : ObjSchema} {k : String} {v : Json}
    {fields : List (String × Json)} (hadd : s.additional = false)
    (hmem : (k, v) ∈ fields)
    (hfind : s.properties.find? (fun q => q.1 == k) = none) :
    checkObj s (Json.obj fields) = false := by
  have h2 : fields.all (fun kv =>
      match s.properties.find? (fun q => q.1 == kv.1) with
      | some q => checkProp q.2 kv.2
      | none => s.additional) = false := by
    apply list_all_eq_false hmem
    show (match s.properties.find? (fun q => q.1 == k) with
      | some q => checkProp q.2 v
      | none => s.additional) = false
    rw [hfind]
    exact hadd
  simp [checkObj, h2]

/-- Appending bindings with undeclared keys to an object accepted by an open
FlatObjSchema keeps it accepted. -/
lemma checkFlat_append_extras {s : FlatObjSchema} {base extras : List (String × Json)}
    (hbase : checkFlat s (Json.obj base) = true) (hadd : s.additional = true)
    (hex : ∀ kv ∈ extras, s.properties.find? (fun p => p.1 == kv.1) = none) :
    checkFlat s (Json.obj (base ++ extras)) = true := by
  simp only [checkFlat] at hbase ⊢
  rw [Bool.and_eq_true] at hbase ⊢
  obtain ⟨hreq, hflds⟩ := hbase
  constructor
  · rw [List.all_eq_true] at hreq ⊢
    intro r hr
    have hbr := hreq r hr
    rw [List.any_append, hbr]
    simp
  · rw [List.all_append, Bool.and_eq_true]
    refine ⟨hflds, ?_⟩
    rw [List.all_eq_true]
    intro kv hkv
    have hfind := hex kv hkv
    show (match s.properties.find? (fun p => p.1 == kv.1) with
      | some p => p.2.any (fun t => tyMatches t kv.2)
      | none => s.additional) = true
    rw [hfind]
    exact hadd

/-- Unrolling of the connect retry loop: if the first `m` attempts from
attempt `a` fail and attempt `a + m` succeeds, the loop (given enough fuel)
returns, appended to the sleeps already performed, the sleep sequence
min(d, 15), min(2d, 15), ..., min(2^(m-1) d, 15). -/
lemma ensure_connection_loop_run (outcomes : Nat → Bool) :
    ∀ (m a d : Nat) (acc : List Nat) (fuel : Nat),
      (∀ i, i < m → outcomes (a + i) = false) → outcomes (a + m) = true →
      m < fuel →
      ensure_connection_loop outcomes fuel a d acc =
        some (acc.reverse ++ (List.range m).map (fun i => min (d * 2 ^ i) 15)) := by
  intro m
  induction m with
  | zero =>
    intro a d acc fuel _ hsucc hfuel
    obtain ⟨f, rfl⟩ : ∃ f, fuel = f + 1 := ⟨fuel - 1, by omega⟩
    rw [Nat.add_zero] at hsucc
    simp [ensure_connection_loop, hsucc]
  | succ m ih =>
    intro a d acc fuel hfail hsucc hfuel
    obtain ⟨f, rfl⟩ : ∃ f, fuel = f + 1 := ⟨fuel - 1, by omega⟩
    have h0 : outcomes a = false := by
      have := hfail 0 (by omega)
      rwa [Nat.add_zero] at this
    rw [ensure_connection_loop, h0]
    simp only [Bool.false_eq_true, if_false]
    rw [ih (a + 1) (d * 2) (min d 15 :: acc) f
      (fun i hi => by
        have := hfail (i + 1) (by omega)
        rwa [show a + (i + 1) = a + 1 + i by omega] at this)
      (by rwa [show a + 1 + m = a + (m + 1) by omega])
      (by omega)]
    congr 1
    rw [List.reverse_cons, List.append_assoc, List.range_succ_eq_map,
      List.map_cons, List.map_map]
    rw [List.singleton_append]
    have hhead : d * 2 ^ 0 ⊓ 15 = d ⊓ 15 := by rw [pow_zero, mul_one]
    rw [hhead]
    have hmaps : List.map ((fun i => d * 2 ^ i ⊓ 15) ∘ Nat.succ) (List.range m) =
        List.map (fun i => d * 2 * 2 ^ i ⊓ 15) (List.range m) := by
      apply List.map_congr_left
      intro i _
      simp only [Function.comp_apply]
      congr 1
      rw [pow_succ]
      ring
    rw [hmaps]

/-- A true result from ensure_topology leaves the client with the
_topology_ready flag set. -/
lemma ensure_topology_true_sets_flag (cfg : TopoCfg) (failAt : Option Nat)
    (s : RCState) (h : (ensure_topology cfg failAt s).1 = true) :
    (ensure_topology cfg failAt s).2.1.topologyReady = true := by
  by_cases hready : s.topologyReady = true
  · simp [ensure_topology, hready]
  · cases failAt with
    | none => simp [ensure_topology, hready]
    | some i =>
      by_cases hi : i < (topologyOps cfg).length
      · exfalso
        simp [ensure_topology, hready, hi] at h
      · simp [ensure_topology, hready, hi]

/-- C2 (corrected). In src/app_bus.py, establishing a new connection does NOT
reset the topology flag: _ensure_connection never writes _topology_ready, so
the flag set by an earlier successful ensure_topology survives a reconnect,
and the next ensure_topology call returns True at once without issuing any
re-provisioning declaration to the broker. -/
theorem reconnect_keeps_topology_flag :
    (∀ s : RCState, (ensure_connection s).topologyReady = s.topologyReady)
    ∧ (∀ (cfg : TopoCfg) (failAt : Option Nat) (s : RCState),
        s.topologyReady = true → ensure_topology cfg failAt s = (true, s, [])) := by
  constructor
  · intro s
    unfold ensure_connection
    split <;> rfl
  · intro cfg failAt s h
    simp [ensure_topology, h]


/-- A sample topology configuration used to instantiate the topology theorems
(the exchange/queue names follow the defaults documented in src/app_bus.py). -/
def sampleCfg : TopoCfg :=
  { dlx := "tolling.dlx", exchange := "tolling", exchangeType := "topic",
    ttlMs := 604800000, queues := [("module3.ops.q", ["transit.*"])] }

/-- Client state right after a connection drop that followed a successful
provisioning: connection and channel closed, _topology_ready still set. -/
def droppedReadyState : RCState :=
  { connOpen := false, chOpen := false, topologyReady := true, lastError := none }

/-- Client state of a freshly constructed RabbitClient (src/app_bus.py
lines 224-229). -/
def freshState : RCState :=
  { connOpen := false, chOpen := false, topologyReady := false, lastError := none }

/-- Fully connected client state with topology applied. -/
def readyState : RCState :=
  { connOpen := true, chOpen := true, topologyReady := true, lastError := none }

/-- Witness for reconnect_keeps_topology_flag: a client that had applied
topology and then lost its connection; reconnecting keeps the flag, and the
following ensure_topology call is a no-op returning true. -/
theorem reconnect_keeps_topology_flag_witness :
    (ensure_connection droppedReadyState).topologyReady = true
    ∧ ensure_topology sampleCfg none readyState = (true, readyState, []) :=
  ⟨(reconnect_keeps_topology_flag.1 droppedReadyState).trans rfl,
   reconnect_keeps_topology_flag.2 sampleCfg none readyState rfl⟩

/-- Counterexample to C2 as stated: after a disconnect (connection and channel
closed) with the flag set, establishing the new connection leaves
topology_applied equal to true, where the claim requires a reset to false;
and the next ensure_topology call performs no re-provisioning: it returns
with an empty declaration list. -/
theorem reconnect_flag_not_reset_cx :
    (ensure_connection droppedReadyState).topologyReady = true
    ∧ ensure_topology sampleCfg none (ensure_connection droppedReadyState) =
        (true, readyState, []) :=
  ⟨rfl, rfl⟩

/-- C6 (confirmed). Once an ensure_topology call has returned true, every
subsequent call - with any configuration and any failure pattern - returns
true immediately, leaves the state unchanged and issues no declaration to
the broker (src/app_bus.py line 252: the early return on _topology_ready). -/
theorem ensure_topology_idempotent :
    ∀ (cfg : TopoCfg) (failAt : Option Nat) (s : RCState),
      (ensure_topology cfg failAt s).1 = true →
      ∀ (cfg2 : TopoCfg) (failAt2 : Option Nat),
        ensure_topology cfg2 failAt2 (ensure_topology cfg failAt s).2.1 =
          (true, (ensure_topology cfg failAt s).2.1, []) := by
  intro cfg failAt s h cfg2 failAt2
  have hflag := ensure_topology_true_sets_flag cfg failAt s h
  generalize hg : (ensure_topology cfg failAt s).2.1 = t at hflag ⊢
  simp [ensure_topology, hflag]

/-- Witness for ensure_topology_idempotent: a fresh client provisions
successfully; a second call (even one whose first declaration would fail)
returns true with no broker interaction. -/
theorem ensure_topology_idempotent_witness :
    (ensure_topology sampleCfg none freshState).1 = true
    ∧ ensure_topology sampleCfg (some 0) (ensure_topology sampleCfg none freshState).2.1 =
        (true, (ensure_topology sampleCfg none freshState).2.1, []) :=
  ⟨rfl, ensure_topology_idempotent sampleCfg none freshState rfl sampleCfg (some 0)⟩

/-- C9 (confirmed). The reconnect loop of RabbitClient._ensure_connection:
if the first n attempts fail and attempt n succeeds, the loop performs
exactly the sleeps min(2^0, 15), min(2^1, 15), ..., min(2^(n-1), 15) - the
delay before the n-th retry is min(2^(n-1), 15), starting at 1 and doubling
with the applied delay capped at 15 - and with an oracle that never succeeds
the loop never terminates with a give-up result: it retries indefinitely. -/
theorem reconnect_backoff :
    (∀ (outcomes : Nat → Bool) (n fuel : Nat),
        (∀ i, i < n → outcomes i = false) → outcomes n = true → n < fuel →
        ensure_connection_loop outcomes fuel 0 1 [] =
          some ((List.range n).map (fun i => min (2 ^ i) 15)))
    ∧ (∀ outcomes : Nat → Bool, (∀ i, outcomes i = false) →
        ∀ fuel a d acc, ensure_connection_loop outcomes fuel a d acc = none) := by
  constructor
  · intro outcomes n fuel hfail hsucc hfuel
    have h := ensure_connection_loop_run outcomes n 0 1 [] fuel
      (fun i hi => by simpa using hfail i hi) (by simpa using hsucc) hfuel
    simpa [one_mul] using h
  · intro outcomes hall fuel
    induction fuel with
    | zero => intro a d acc; rfl
    | succ f ih =>
      intro a d acc
      rw [ensure_connection_loop, hall a]
      simp only [Bool.false_eq_true, if_false]
      exact ih (a + 1) (d * 2) (min d 15 :: acc)

/-- Witness for reconnect_backoff: six failures then success performs the
sleeps 1, 2, 4, 8, 15, 15 (the cap at 15 bites from the fifth retry on);
an always-failing oracle yields no termination for any fuel. -/
theorem reconnect_backoff_witness :
    (∀ i, i < 6 → (fun j => decide (6 ≤ j)) i = false)
    ∧ (fun j => decide (6 ≤ j)) 6 = true
    ∧ ensure_connection_loop (fun j => decide (6 ≤ j)) 8 0 1 [] =
        some [1, 2, 4, 8, 15, 15]
    ∧ ensure_connection_loop (fun _ => false) 999 0 1 [] = none := by
  refine ⟨by decide, by decide, ?_, ?_⟩
  · rw [reconnect_backoff.1 (fun j => decide (6 ≤ j)) 6 8 (by decide) (by decide)
      (by decide)]
    rfl
  · exact reconnect_backoff.2 (fun _ => false) (fun i => rfl) 999 0 1 []

/-- The data object of transitExampleEnvelope, i.e. the (evt, data) pair
payload that publisher_validate returns for it. -/
def transitExampleData : Json :=
  Json.obj
    [("transit_id", Json.str "t-001"),
     ("toll_id", Json.str "N1"),
     ("toll_name", Json.str "Peaje Norte"),
     ("lane", Json.str "3"),
     ("vehicle_id", Json.str "V-ABC123"),
     ("vehicle_type", Json.str "car"),
     ("timestamp", Json.str "2025-10-26T14:22:33Z")]

/-- On a validated envelope, src/publisher.py main connects, publishes exactly
once and closes; the published message carries the envelope as body,
content_type application/json, delivery_mode 2, no message_id, and the
mandatory flag left at pika's default False. -/
lemma publisher_main_ok (envelope : Json) (rkArg : Option String)
    (exchange : String) (evt : String) (d : Json)
    (hval : publisher_validate envelope = Except.ok (evt, d)) :
    publisher_main envelope rkArg exchange =
      ([NetAction.connect,
        NetAction.publish
          { exchange := exchange, routing_key := chooseRk rkArg evt,
            body := envelope,
            props := { content_type := some "application/json",
                       delivery_mode := some 2, message_id := none },
            mandatory := false },
        NetAction.close],
       Except.ok (chooseRk rkArg evt)) := by
  simp [publisher_main, hval]

/-- C1 (corrected). For every validated envelope, src/publisher.py publishes
to the configured exchange marked persistent (delivery_mode 2) but NOT
mandatory (the basic_publish call passes no mandatory flag, so pika's default
False applies), and the reported outcome is success for whatever routing key
was used: the program neither enables confirms nor registers a return
handler, so an unroutable routing key is not detected and no Unroutable
outcome exists. -/
theorem publish_persistent_not_mandatory :
    ∀ (envelope : Json) (rkArg : Option String) (exchange evt : String) (d : Json),
      publisher_validate envelope = Except.ok (evt, d) →
      (publishedOf (publisher_main envelope rkArg exchange)).map
          (fun p => (p.exchange, p.props.delivery_mode, p.mandatory)) =
        [(exchange, some 2, false)]
      ∧ (publisher_main envelope rkArg exchange).2 =
          Except.ok (chooseRk rkArg evt) := by
  intro envelope rkArg exchange evt d hval
  rw [publisher_main_ok envelope rkArg exchange evt d hval]
  exact ⟨rfl, rfl⟩

/-- Witness for publish_persistent_not_mandatory at the documentation's
transit.recorded envelope with an explicit routing key override. -/
theorem publish_persistent_not_mandatory_witness :
    publisher_validate transitExampleEnvelope =
      Except.ok ("transit.recorded", transitExampleData)
    ∧ (publishedOf (publisher_main transitExampleEnvelope (some "ops.route") "tolling")).map
        (fun p => (p.exchange, p.props.delivery_mode, p.mandatory)) =
      [("tolling", some 2, false)]
    ∧ (publisher_main transitExampleEnvelope (some "ops.route") "tolling").2 =
        Except.ok (chooseRk (some "ops.route") "transit.recorded") :=
  ⟨rfl,
   (publish_persistent_not_mandatory transitExampleEnvelope (some "ops.route")
     "tolling" "transit.recorded" transitExampleData rfl).1,
   (publish_persistent_not_mandatory transitExampleEnvelope (some "ops.route")
     "tolling" "transit.recorded" transitExampleData rfl).2⟩

/-- Counterexample to C1 as stated: the valid transit.recorded envelope
published with routing key "no.such.key" (which matches no binding of the
documented topology) is sent NOT mandatory - so the broker will silently
drop it rather than report it - and the program's outcome is plain success
echoing the routing key; no Unroutable outcome is produced or even
representable in src/publisher.py. -/
theorem publish_unroutable_cx :
    (publishedOf (publisher_main transitExampleEnvelope (some "no.such.key")
        "tolling")).map (fun p => p.mandatory) = [false]
    ∧ (publisher_main transitExampleEnvelope (some "no.such.key") "tolling").2 =
        Except.ok "no.such.key" :=
  ⟨rfl, rfl⟩

/-- C4 (confirmed). Any envelope that passes the envelope schema but whose
event string has no entry in SCHEMAS makes src/publisher.py main fail with
the "Schema no registrado" SystemExit, whatever the data field contains
(lines 27-29: the lookup happens before the payload is ever validated). -/
theorem validate_unregistered_event :
    ∀ (envelope : Json) (evt : String),
      checkObj ENVELOPE envelope = true →
      jGet envelope "event" = some (Json.str evt) →
      lookupSchema evt = none →
      publisher_validate envelope = Except.error (ValErr.schemaNotRegistered evt) := by
  intro envelope evt henv hevt hlook
  unfold publisher_validate
  rw [henv, hevt]
  simp [hlook]

/-- Witness for validate_unregistered_event: a well-formed envelope whose
event "lane.passage.detected" (a name used by other clients in the repo but
absent from SCHEMAS) is rejected as not registered although its data field
is an arbitrary object. -/
theorem validate_unregistered_event_witness :
    checkObj ENVELOPE
        (Json.obj
          [("event", Json.str "lane.passage.detected"),
           ("version", Json.str "1.0"),
           ("data", Json.obj [("anything", Json.num 1)]),
           ("meta", Json.obj
             [("occurred_at", Json.str "2025-01-01T00:00:00Z"),
              ("producer", Json.str "m2")])]) = true
    ∧ lookupSchema "lane.passage.detected" = none
    ∧ publisher_validate
        (Json.obj
          [("event", Json.str "lane.passage.detected"),
           ("version", Json.str "1.0"),
           ("data", Json.obj [("anything", Json.num 1)]),
           ("meta", Json.obj
             [("occurred_at", Json.str "2025-01-01T00:00:00Z"),
              ("producer", Json.str "m2")])]) =
      Except.error (ValErr.schemaNotRegistered "lane.passage.detected") :=
  ⟨rfl, rfl,
   validate_unregistered_event
     (Json.obj
       [("event", Json.str "lane.passage.detected"),
        ("version", Json.str "1.0"),
        ("data", Json.obj [("anything", Json.num 1)]),
        ("meta", Json.obj
          [("occurred_at", Json.str "2025-01-01T00:00:00Z"),
           ("producer", Json.str "m2")])])
     "lane.passage.detected" rfl rfl rfl⟩

/-- C5 (confirmed). When validation fails - envelope schema, unregistered
event or payload schema - src/publisher.py main raises before load_cfg and
pika are ever reached: the run performs no network action at all and reports
the validation failure. -/
theorem publish_no_network_on_invalid :
    ∀ (envelope : Json) (rkArg : Option String) (exchange : String) (e : ValErr),
      publisher_validate envelope = Except.error e →
      publisher_main envelope rkArg exchange = ([], Except.error e) := by
  intro envelope rkArg exchange e hval
  simp [publisher_main, hval]

/-- Witness for publish_no_network_on_invalid: a payment.recorded envelope
whose amount is a string fails payload validation and produces an empty
network trace. -/
theorem publish_no_network_on_invalid_witness :
    publisher_validate
        (Json.obj
          [("event", Json.str "payment.recorded"),
           ("version", Json.str "1.0"),
           ("data", Json.obj [("amount", Json.str "1200")]),
           ("meta", Json.obj
             [("occurred_at", Json.str "2025-01-01T00:00:00Z"),
              ("producer", Json.str "m4")])]) =
      Except.error ValErr.dataInvalid
    ∧ publisher_main
        (Json.obj
          [("event", Json.str "payment.recorded"),
           ("version", Json.str "1.0"),
           ("data", Json.obj [("amount", Json.str "1200")]),
           ("meta", Json.obj
             [("occurred_at", Json.str "2025-01-01T00:00:00Z"),
              ("producer", Json.str "m4")])])
        none "tolling" =
      ([], Except.error ValErr.dataInvalid) :=
  ⟨rfl,
   publish_no_network_on_invalid
     (Json.obj
       [("event", Json.str "payment.recorded"),
        ("version", Json.str "1.0"),
        ("data", Json.obj [("amount", Json.str "1200")]),
        ("meta", Json.obj
          [("occurred_at", Json.str "2025-01-01T00:00:00Z"),
           ("producer", Json.str "m4")])])
     none "tolling" ValErr.dataInvalid rfl⟩

/-- C7 (corrected). The wire message of src/publisher.py is the UTF-8 JSON
serialization of the validated envelope (json.dumps of exactly the validated
value) with content_type application/json and delivery_mode 2; but no
message identifier is ever set: BasicProperties is built without message_id,
so meta.correlation_id is not propagated to the message properties. -/
theorem publish_wire_format :
    ∀ (envelope : Json) (rkArg : Option String) (exchange evt : String) (d : Json),
      publisher_validate envelope = Except.ok (evt, d) →
      (publishedOf (publisher_main envelope rkArg exchange)).map
          (fun p => (p.body, p.props)) =
        [(envelope,
          { content_type := some "application/json", delivery_mode := some 2,
            message_id := none })] := by
  intro envelope rkArg exchange evt d hval
  rw [publisher_main_ok envelope rkArg exchange evt d hval]
  rfl

/-- Witness for publish_wire_format at the transit.recorded example. -/
theorem publish_wire_format_witness :
    publisher_validate transitExampleEnvelope =
      Except.ok ("transit.recorded", transitExampleData)
    ∧ (publishedOf (publisher_main transitExampleEnvelope none "tolling")).map
        (fun p => (p.body, p.props)) =
      [(transitExampleEnvelope,
        { content_type := some "application/json", delivery_mode := some 2,
          message_id := none })] :=
  ⟨rfl,
   publish_wire_format transitExampleEnvelope none "tolling" "transit.recorded"
     transitExampleData rfl⟩

/-- Counterexample to C7 as stated: the transit.recorded example envelope
carries meta.correlation_id "corr-1", yet the message it is published with
has message_id None - the claim's "message identifier populated from
meta.correlation_id" fails. -/
theorem publish_message_id_cx :
    metaCorrelationId transitExampleEnvelope = some (Json.str "corr-1")
    ∧ (publishedOf (publisher_main transitExampleEnvelope none "tolling")).map
        (fun p => p.props.message_id) = [none] :=
  ⟨rfl, rfl⟩

/-- C3 (corrected). The on_msg handler of src/worker.py acknowledges a
message exactly when its body decodes as UTF-8 - the only fallible step in
its try-block - and negatively-acknowledges without requeue otherwise. It
performs no JSON parsing and no Schema-Registry validation at all: the
handler's decision depends only on UTF-8 validity of the body. -/
theorem worker_ack_iff_utf8 :
    (∀ body : List Nat, isValidUtf8 body = true → on_msg body = WorkerAction.ack)
    ∧ (∀ body : List Nat, isValidUtf8 body = false →
        on_msg body = WorkerAction.nackNoRequeue)
    ∧ (∀ b1 b2 : List Nat, isValidUtf8 b1 = isValidUtf8 b2 →
        on_msg b1 = on_msg b2) := by
  refine ⟨fun body h => ?_, fun body h => ?_, fun b1 b2 h => ?_⟩
  · simp [on_msg, h]
  · simp [on_msg, h]
  · simp only [on_msg, h]

/-- Witness for worker_ack_iff_utf8: the ASCII body "hola" is acked, the
lone byte 0xFF (not valid UTF-8) is nacked without requeue, and two bodies
of equal UTF-8 validity are treated identically. -/
theorem worker_ack_iff_utf8_witness :
    isValidUtf8 [104, 111, 108, 97] = true
    ∧ on_msg [104, 111, 108, 97] = WorkerAction.ack
    ∧ isValidUtf8 [255] = false
    ∧ on_msg [255] = WorkerAction.nackNoRequeue
    ∧ on_msg [104, 111, 108, 97] = on_msg [32] :=
  ⟨rfl,
   worker_ack_iff_utf8.1 [104, 111, 108, 97] rfl,
   rfl,
   worker_ack_iff_utf8.2.1 [255] rfl,
   worker_ack_iff_utf8.2.2 [104, 111, 108, 97] [32] rfl⟩

/-- Counterexample to C3 as stated: the two-byte body [123, 125] is the UTF-8
encoding of the text whose JSON parse is the empty object, which fails
envelope validation outright - yet the worker acknowledges it instead of
negatively-acknowledging, because on_msg never validates. So "acknowledges
if and only if validation succeeds" is false. -/
theorem worker_acks_invalid_cx :
    on_msg [123, 125] = WorkerAction.ack
    ∧ publisher_validate (Json.obj []) = Except.error ValErr.envelopeInvalid :=
  ⟨rfl, rfl⟩

/-- C8 (confirmed). The schema gate over the registry: exactly the two open
event types customer.upserted and vehicle.upserted allow extension fields;
every registered event accepts a payload matching its schema exactly (one
concrete such payload per event via exampleData); and for every registered
schema, a payload missing a required field is rejected, a payload whose
declared field fails its field schema (e.g. wrong type) is rejected, and -
for closed schemas - a payload with an undeclared field is rejected. -/
theorem schema_gate :
    ((SCHEMAS.filter (fun p => p.2.additional)).map Prod.fst =
        ["customer.upserted", "vehicle.upserted"])
    ∧ (SCHEMAS.all (fun p =>
        match exampleData p.1 with
        | some d => checkObj p.2 d
        | none => false) = true)
    ∧ (∀ (name : String) (s : ObjSchema) (r : String)
          (fields : List (String × Json)),
        (name, s) ∈ SCHEMAS → r ∈ s.required →
        fields.any (fun kv => kv.1 == r) = false →
        checkObj s (Json.obj fields) = false)
    ∧ (∀ (name : String) (s : ObjSchema) (k : String) (v : Json)
          (p : String × PropSchema) (fields : List (String × Json)),
        (name, s) ∈ SCHEMAS → (k, v) ∈ fields →
        s.properties.find? (fun q => q.1 == k) = some p →
        checkProp p.2 v = false →
        checkObj s (Json.obj fields) = false)
    ∧ (∀ (name : String) (s : ObjSchema) (k : String) (v : Json)
          (fields : List (String × Json)),
        (name, s) ∈ SCHEMAS → s.additional = false → (k, v) ∈ fields →
        s.properties.find? (fun q => q.1 == k) = none →
        checkObj s (Json.obj fields) = false) := by
  refine ⟨by decide, by decide, ?_, ?_, ?_⟩
  · intro name s r fields _ hr habs
    exact checkObj_missing_required hr habs
  · intro name s k v p fields _ hmem hfind hbad
    exact checkObj_bad_field hmem hfind hbad
  · intro name s k v fields _ hadd hmem hfind
    exact checkObj_undeclared hadd hmem hfind

/-- Witness for schema_gate at payment.recorded: the empty payload (missing
required "amount") is rejected, a payload whose "amount" is a string is
rejected, and a payload with an undeclared key "bogus" is rejected. -/
theorem schema_gate_witness :
    checkObj paymentRecordedS (Json.obj []) = false
    ∧ checkObj paymentRecordedS (Json.obj [("amount", Json.str "mucho")]) = false
    ∧ checkObj paymentRecordedS (Json.obj [("bogus", Json.str "x")]) = false :=
  ⟨schema_gate.2.2.1 "payment.recorded" paymentRecordedS "amount" []
     (by decide) (by decide) rfl,
   schema_gate.2.2.2.1 "payment.recorded" paymentRecordedS "amount"
     (Json.str "mucho") ("amount", PropSchema.prim [PrimTy.num])
     [("amount", Json.str "mucho")]
     (by decide) (List.mem_cons_self _ _) rfl rfl,
   schema_gate.2.2.2.2 "payment.recorded" paymentRecordedS "bogus"
     (Json.str "x") [("bogus", Json.str "x")]
     (by decide) rfl (List.mem_cons_self _ _) rfl⟩

/-- C10 (confirmed). The envelope schema is closed at the top level - any
binding whose key is not one of event/version/data/meta makes validation
fail - while the nested meta object is open: the required occurred_at and
producer may be followed by arbitrary bindings under keys other than the
four declared ones, and the envelope still validates. -/
theorem envelope_top_closed_meta_open :
    (∀ (fields : List (String × Json)) (k : String) (v : Json),
        (k, v) ∈ fields → k ∉ ["event", "version", "data", "meta"] →
        checkObj ENVELOPE (Json.obj fields) = false)
    ∧ (∀ extras : List (String × Json),
        (∀ kv ∈ extras,
          kv.1 ∉ ["occurred_at", "producer", "correlation_id", "causation_id"]) →
        checkObj ENVELOPE (envWithMetaExtras extras) = true) := by
  constructor
  · intro fields k v hmem hk
    apply checkObj_undeclared rfl hmem
    apply findKey_eq_none
    intro p hp he
    have hkeys : p.1 ∈ ["event", "version", "data", "meta"] := by
      have := List.mem_map_of_mem Prod.fst hp
      simpa [ENVELOPE] using this
    exact hk (he ▸ hkeys)
  · intro extras hex
    have hmeta : checkFlat metaSchema (Json.obj
        ([("occurred_at", Json.str "2025-01-01T00:00:00Z"),
          ("producer", Json.str "m3")] ++ extras)) = true := by
      apply checkFlat_append_extras
      · rfl
      · rfl
      · intro kv hkv
        apply findKey_eq_none
        intro p hp he
        have hkeys : p.1 ∈ ["occurred_at", "producer", "correlation_id",
            "causation_id"] := by
          have := List.mem_map_of_mem Prod.fst hp
          simpa [metaSchema] using this
        exact hex kv hkv (he ▸ hkeys)
    show checkFlat metaSchema (Json.obj
        ([("occurred_at", Json.str "2025-01-01T00:00:00Z"),
          ("producer", Json.str "m3")] ++ extras)) && true = true
    rw [hmeta]
    simp

/-- Witness for envelope_top_closed_meta_open: an envelope with the stray
top-level key "routing_key" is rejected, and the example envelope whose meta
carries the extra keys "trace_id" and "retries" is accepted. -/
theorem envelope_top_closed_meta_open_witness :
    checkObj ENVELOPE
        (Json.obj
          [("event", Json.str "transit.recorded"),
           ("version", Json.str "1.0"),
           ("data", Json.obj []),
           ("meta", Json.obj
             [("occurred_at", Json.str "2025-01-01T00:00:00Z"),
              ("producer", Json.str "m3")]),
           ("routing_key", Json.str "transit.recorded")]) = false
    ∧ checkObj ENVELOPE (envWithMetaExtras
        [("trace_id", Json.str "t-1"), ("retries", Json.num 2)]) = true :=
  ⟨envelope_top_closed_meta_open.1
     [("event", Json.str "transit.recorded"),
      ("version", Json.str "1.0"),
      ("data", Json.obj []),
      ("meta", Json.obj
        [("occurred_at", Json.str "2025-01-01T00:00:00Z"),
         ("producer", Json.str "m3")]),
      ("routing_key", Json.str "transit.recorded")]
     "routing_key" (Json.str "transit.recorded")
     (by simp) (by decide),
   envelope_top_closed_meta_open.2
     [("trace_id", Json.str "t-1"), ("retries", Json.num 2)]
     (by decide)⟩
